import Mathlib

/-!
Verification of the modl-admin monitoring and authentication core.

This file shallowly embeds the server-side code of the repository:
the authentication middleware (src/server/middleware/authMiddleware.ts
together with its global registration in src/server/index.ts), the
monitoring routes (src/server/routes/monitoring.ts) and the analytics
registration-trend computation (src/server/routes/analytics.ts).
JavaScript truthiness on string-valued fields (undefined, null and the
empty string are all falsy) is modelled explicitly, machine dates are
modelled as natural-number millisecond timestamps, and the MongoDB
store is modelled as a list of records.
-/

/-- JavaScript truthiness test for an optional string field:
`undefined`/`null` (here `none`) and the empty string are falsy. -/
def jsFalsyStr (o : Option String) : Bool :=
  match o with
  | none => true
  | some s => s = ""

/-- The JavaScript expression `o || d` for a string-valued `o` with
default `d`: falsy values (absent or empty) fall through to `d`. -/
def jsOrDStr (o : Option String) (d : String) : String :=
  match o with
  | none => d
  | some s => if s = "" then d else s

/-- `Array.prototype.filter(Boolean)` over possibly-absent strings. -/
def jsFilterBoolean (xs : List (Option String)) : List String :=
  xs.filterMap (fun o =>
    match o with
    | none => none
    | some s => if s = "" then none else some s)

/-! ### Session store data model (src/server/models/AdminUser.ts) -/

/-- An admin identity as stored in the `admin_users` collection:
`loggedInIps` is the authorizedAddresses set of the spec. -/
structure AdminUser where
  id : String
  email : String
  loggedInIps : List String
  lastActivityAt : Nat
deriving DecidableEq, Repr

/-- The express-session state relevant to the auth middleware. -/
structure SessionData where
  adminId : Option String
  isAuthenticated : Bool
deriving DecidableEq, Repr

/-- The per-request fields read by the middleware:
`req.ip` and `req.connection.remoteAddress`. -/
structure AuthRequest where
  ip : Option String
  remoteAddress : Option String
deriving DecidableEq, Repr

/-- `req.ip || req.connection.remoteAddress || 'unknown'`. -/
def clientIP (req : AuthRequest) : String :=
  jsOrDStr req.ip (jsOrDStr req.remoteAddress "unknown")

/-- Outcome of the auth middleware: the three distinct 401 denials of
`requireAuth`, or a grant carrying the admin attached to the request. -/
inductive AuthDecision where
  | granted (admin : AdminUser)
  | authenticationRequired
  | invalidSession
  | addressNotAuthorized
deriving DecidableEq, Repr

/-- `AdminUserModel.findById(adminId)`. -/
def findAdmin (admins : List AdminUser) (aid : String) : Option AdminUser :=
  admins.find? (fun a => a.id == aid)

/-- The state of a session after `req.session.destroy`. -/
def destroyedSession : SessionData :=
  { adminId := none, isAuthenticated := false }

/-- The mock admin installed by the development-mode bypass in
`requireAuth` (src/server/middleware/authMiddleware.ts lines 8-21). -/
def mockAdmin (req : AuthRequest) (now : Nat) : AdminUser :=
  { id := "dev-admin-id-00000000000000"
    email := "dev@modl.gg"
    loggedInIps := jsFilterBoolean [some "127.0.0.1", some "::1", req.ip]
    lastActivityAt := now }

/-- `requireAuth` (src/server/middleware/authMiddleware.ts lines 7-65).
Returns the decision together with the session state after the call
(`req.session.destroy` clears the session on a dangling admin id). -/
def requireAuth (devMode : Bool) (admins : List AdminUser) (s : SessionData)
    (req : AuthRequest) (now : Nat) : AuthDecision × SessionData :=
  if devMode then
    (AuthDecision.granted (mockAdmin req now),
      { adminId := some (mockAdmin req now).id, isAuthenticated := true })
  else
    if jsFalsyStr s.adminId || !s.isAuthenticated then
      (AuthDecision.authenticationRequired, s)
    else
      match s.adminId with
      | none => (AuthDecision.authenticationRequired, s)
      | some aid =>
        match findAdmin admins aid with
        | none => (AuthDecision.invalidSession, destroyedSession)
        | some admin =>
          if clientIP req ∈ admin.loggedInIps then
            (AuthDecision.granted admin, s)
          else
            (AuthDecision.addressNotAuthorized, s)

/-- `$addToSet`: append the value only if it is not already present. -/
def addToSet (l : List String) (x : String) : List String :=
  if x ∈ l then l else l ++ [x]

/-- `updateActivity` (src/server/middleware/authMiddleware.ts lines
91-114): for a session carrying a (truthy) adminId, a single
`updateOne` sets `lastActivityAt` and `$addToSet`s the client IP into
`loggedInIps`.  Returns the admin store after the update. -/
def updateActivity (devMode : Bool) (admins : List AdminUser) (s : SessionData)
    (req : AuthRequest) (now : Nat) : List AdminUser :=
  if jsFalsyStr s.adminId then
    admins
  else
    match s.adminId with
    | none => admins
    | some aid =>
      if devMode && aid.startsWith "dev-admin-id" then
        admins
      else
        admins.map (fun a =>
          if a.id == aid then
            { a with lastActivityAt := now,
                     loggedInIps := addToSet a.loggedInIps (clientIP req) }
          else a)

/-- The request pipeline as wired in src/server/index.ts:
`app.use(updateActivity)` (line 91) runs before the routers, whose
guarded routes then run `requireAuth`.  Returns the decision, the
session after the guard, and the admin store after the pipeline. -/
def authPipeline (devMode : Bool) (admins : List AdminUser) (s : SessionData)
    (req : AuthRequest) (now : Nat) :
    AuthDecision × SessionData × List AdminUser :=
  let admins1 := updateActivity devMode admins s req now
  let g := requireAuth devMode admins1 s req now
  (g.1, g.2, admins1)

/-! ### Log store data model (SystemLog collection) -/

/-- A stored system log event.  Field layout follows the `SystemLog`
interface (src/shared/types.ts) extended with the resolution-workflow
fields read and written by src/server/routes/monitoring.ts. -/
structure LogEvent where
  id : String
  level : String
  message : String
  source : String
  category : Option String
  serverId : Option String
  timestamp : Nat
  resolved : Bool
  resolvedBy : Option String
  resolvedAt : Option Nat
deriving DecidableEq, Repr

/-- The request body of `POST /api/monitoring/logs`: every field is
caller-controlled and independently optional. -/
structure IngestBody where
  level : Option String
  message : Option String
  source : Option String
  category : Option String
  serverId : Option String
  timestamp : Option Nat
  resolved : Option Bool
  resolvedBy : Option String
  resolvedAt : Option Nat
deriving DecidableEq, Repr

/-- Modelled from the spec: the Mongoose `SystemLog` schema lives in
`src/server/models/SystemLog.ts`, which is absent from the sources
(only its importers are present).  Per spec section 3 a LogEvent has
`resolved: bool` with the invariant that it starts false, so the
schema default for `resolved` is `false`; the optional fields default
to absent.  Document construction follows the route code
`new SystemLogModel({ ...logData, timestamp: new Date() })`
(src/server/routes/monitoring.ts lines 266-269): every caller-supplied
field is spread into the document and only `timestamp` is overridden
with the server time; schema defaults apply only to absent fields. -/
def createLog (body : IngestBody) (now : Nat) (newId : String) : LogEvent :=
  { id := newId
    level := body.level.getD ""
    message := body.message.getD ""
    source := body.source.getD ""
    category := body.category
    serverId := body.serverId
    timestamp := now
    resolved := body.resolved.getD false
    resolvedBy := body.resolvedBy
    resolvedAt := body.resolvedAt }

/-- Response of the ingestion route: 400 on failed validation, else
201 with the stored document. -/
inductive IngestResult where
  | validationError
  | created (e : LogEvent)
deriving DecidableEq, Repr

/-- `POST /api/monitoring/logs` (src/server/routes/monitoring.ts lines
254-285): reject when `level`, `message` or `source` is falsy
(absent or empty), otherwise save the constructed document. -/
def ingest (store : List LogEvent) (body : IngestBody) (now : Nat)
    (newId : String) : IngestResult × List LogEvent :=
  if jsFalsyStr body.level || jsFalsyStr body.message || jsFalsyStr body.source then
    (IngestResult.validationError, store)
  else
    (IngestResult.created (createLog body now newId),
      store ++ [createLog body now newId])

/-- The update document of `findByIdAndUpdate` in the resolve route
(src/server/routes/monitoring.ts lines 317-325): unconditionally sets
`resolved`, `resolvedBy` (with JS-falsy default `'admin'`) and
`resolvedAt`. -/
def resolveUpdate (e : LogEvent) (resolvedBy : Option String) (now : Nat) : LogEvent :=
  { e with resolved := true
           resolvedBy := some (jsOrDStr resolvedBy "admin")
           resolvedAt := some now }

/-- Response of `PUT /api/monitoring/logs/:id/resolve`: 404 when no
document matches the id, else 200 with the updated document. -/
inductive ResolveResult where
  | notFound
  | ok (e : LogEvent)
deriving DecidableEq, Repr

/-- `PUT /api/monitoring/logs/:id/resolve` (src/server/routes/
monitoring.ts lines 312-346): `findByIdAndUpdate(id, update, {new:true})`
applies the update to the matching document whether or not it is
already resolved, and returns 404 only when the id matches nothing. -/
def resolveLog (store : List LogEvent) (id : String) (resolvedBy : Option String)
    (now : Nat) : ResolveResult × List LogEvent :=
  match store.find? (fun e => e.id == id) with
  | none => (ResolveResult.notFound, store)
  | some e =>
    (ResolveResult.ok (resolveUpdate e resolvedBy now),
      store.map (fun x => if x.id == id then resolveUpdate x resolvedBy now else x))

/-! ### Log query pagination (GET /api/monitoring/logs) -/

/-- `const limitNum = Math.min(parseInt(limit as string), 100)`
(src/server/routes/monitoring.ts line 161).  `page` and `limit` are
modelled as the natural numbers a successful `parseInt` of the query
string produces. -/
def effectiveLimit (limit : Nat) : Nat :=
  min limit 100

/-- The page of documents produced by `.skip(skip).limit(limitNum)`
applied to the filtered and sorted result list, with
`skip = (pageNum - 1) * limitNum` (line 162), under MongoDB
semantics: a limit of zero applies no limit at all, and a negative
skip (caller page 0 with a positive limit, since JS `(0-1)*limitNum`
is negative) is a query error that the route surfaces as a 500
response, modelled as `none`. -/
def pagedLogs (logs : List LogEvent) (page limit : Nat) : Option (List LogEvent) :=
  let limitNum := effectiveLimit limit
  if page = 0 ∧ 0 < limitNum then
    none
  else
    let dropped := logs.drop ((page - 1) * limitNum)
    some (if limitNum = 0 then dropped else dropped.take limitNum)

/-- `pages: Math.ceil(total / limitNum)` (src/server/routes/
monitoring.ts line 225).  For a positive `limitNum` this is the
mathematical ceiling of the exact quotient; a zero `limitNum` divides
in JavaScript to `Infinity` (positive total) or `NaN` (zero total),
neither of which is an integer page count, modelled as `none`. -/
def pagesOf (total limitNum : Nat) : Option Int :=
  if limitNum = 0 then
    none
  else
    some (Int.ceil ((total : ℚ) / (limitNum : ℚ)))

/-! ### Health scorer (src/server/routes/monitoring.ts lines 406-432) -/

/-- Health status labels used by the dashboard response. -/
inductive HealthStatus where
  | excellent
  | good
  | fair
  | poor
deriving DecidableEq, Repr

/-- `calculateSystemHealth` (src/server/routes/monitoring.ts lines
406-432), with JavaScript numbers modelled as exact rationals:
successive penalties subtracted from 100, then
`Math.max(0, Math.round(score))`.  `Math.round` rounds half toward
positive infinity, which is Mathlib `round`.  `activeServers` is an
input of the source function that the body never reads. -/
def calculateSystemHealth (totalServers activeServers failedServers
    criticalLogs24h errorLogs24h unresolvedCritical unresolvedErrors : Nat) : Int :=
  let score : ℚ := 100
  let score := if totalServers > 0 then
      score - ((failedServers : ℚ) / (totalServers : ℚ)) * 30
    else score
  let score := score - min ((criticalLogs24h : ℚ) * 5) 25
  let score := score - min ((errorLogs24h : ℚ) * 1) 20
  let score := score - (unresolvedCritical : ℚ) * 10
  let score := score - (unresolvedErrors : ℚ) * 3
  max 0 (round score)

/-- The status classification of the dashboard route
(src/server/routes/monitoring.ts lines 120-122). -/
def healthStatus (healthScore : Int) : HealthStatus :=
  if healthScore ≥ 95 then HealthStatus.excellent
  else if healthScore ≥ 85 then HealthStatus.good
  else if healthScore ≥ 70 then HealthStatus.fair
  else HealthStatus.poor

/-- The reference algorithm exactly as written in spec section 4.4:
identical penalties, then `clamp(round(score), 0, 100)`. -/
def specHealthScore (totalTenants failedTenants criticalLogs24h errorLogs24h
    unresolvedCritical unresolvedErrors : Nat) : Int :=
  let score : ℚ := 100
  let score := if totalTenants > 0 then
      score - ((failedTenants : ℚ) / (totalTenants : ℚ)) * 30
    else score
  let score := score - min ((criticalLogs24h : ℚ) * 5) 25
  let score := score - min ((errorLogs24h : ℚ) * 1) 20
  let score := score - (unresolvedCritical : ℚ) * 10
  let score := score - (unresolvedErrors : ℚ) * 3
  min 100 (max 0 (round score))

/-- The status thresholds exactly as the claim states them:
excellent iff score at least 95, good iff in [85,95), fair iff in
[70,85), else poor. -/
def specHealthStatus (score : Int) : HealthStatus :=
  if score ≥ 95 then HealthStatus.excellent
  else if score ≥ 85 then HealthStatus.good
  else if score ≥ 70 then HealthStatus.fair
  else HealthStatus.poor

/-! ### Trend aggregation (src/server/routes/analytics.ts lines 54-65) -/

/-- Calendar-day bucket key of a millisecond timestamp.  The source
formats the date as a `%Y-%m-%d` string; day numbers order the same
way those strings do, so the bucket key is modelled as the day
number. -/
def dayOf (t : Nat) : Nat :=
  t / 86400000

/-- The `registrationTrend` aggregation (src/server/routes/analytics.ts
lines 54-59): match documents created on or after the window start,
group them by calendar day with a count per day, and sort the buckets
ascending by day key. -/
def registrationTrend (createdAts : List Nat) (startDate : Nat) :
    List (Nat × Nat) :=
  let days := (createdAts.filter (fun t => startDate ≤ t)).map dayOf
  (days.dedup.insertionSort (· ≤ ·)).map (fun d => (d, days.count d))

/-- The cumulative pass of lines 61-65: a single traversal carrying a
running `cumulative` accumulator, emitting per bucket the day, the
count, and the accumulator after adding the count. -/
def trendCumulAux (acc : Nat) : List (Nat × Nat) → List (Nat × Nat × Nat)
  | [] => []
  | (d, c) :: rest => (d, c, acc + c) :: trendCumulAux (acc + c) rest

/-- `trendWithCumulative` (src/server/routes/analytics.ts lines 61-65):
`let cumulative = 0` then map each bucket to itself plus the running
sum. -/
def trendWithCumulative (trend : List (Nat × Nat)) : List (Nat × Nat × Nat) :=
  trendCumulAux 0 trend

/-- The tenant-registration trend series as served by the analytics
dashboard: aggregation followed by the cumulative pass. -/
def registrationTrendWithCumulative (createdAts : List Nat) (startDate : Nat) :
    List (Nat × Nat × Nat) :=
  trendWithCumulative (registrationTrend createdAts startDate)

/-! ### Sources endpoints (src/server/routes/monitoring.ts) -/

/-- `SystemLogModel.distinct(field)`: the distinct values of the field
over the stored documents. -/
def distinctValues (xs : List String) : List String :=
  xs.dedup

/-- The first registered `GET /api/monitoring/sources` handler
(src/server/routes/monitoring.ts lines 291-306): all distinct source
values, sorted with `Array.prototype.sort` (lexicographic), with no
non-empty filtering and no categories. -/
def sourcesHandlerFirst (logs : List LogEvent) : List String :=
  (distinctValues (logs.map (fun e => e.source))).insertionSort (· ≤ ·)

/-- The second registered `GET /api/monitoring/sources` handler
(src/server/routes/monitoring.ts lines 352-371): distinct sources and
distinct categories, each with falsy values filtered out by
`.filter(Boolean)`, and neither sorted. -/
def sourcesHandlerSecond (logs : List LogEvent) : List String × List String :=
  ((distinctValues (logs.map (fun e => e.source))).filter (fun s => s ≠ ""),
    (distinctValues (logs.filterMap (fun e => e.category))).filter (fun s => s ≠ ""))

/-- The response the server actually produces for
`GET /api/monitoring/sources`: Express dispatches a request to the
first matching registered handler, so the handler at lines 291-306
answers and the one at lines 352-371 is unreachable. -/
def sourcesEndpoint (logs : List LogEvent) : List String :=
  sourcesHandlerFirst logs

/-- The behaviour the spec describes for `distinctSources()`
(spec section 4.3): the set of observed non-empty source values,
sorted lexicographically.  Stated here only to be compared against
the endpoint the code serves. -/
def specDistinctSources (logs : List LogEvent) : List String :=
  ((distinctValues (logs.map (fun e => e.source))).filter (fun s => s ≠ "")).insertionSort (· ≤ ·)

/-! ### Generic lemmas -/

/-- The added value is a member of an `$addToSet` result. -/
theorem mem_addToSet (l : List String) (x : String) : x ∈ addToSet l x := by
  unfold addToSet
  split
  · assumption
  · simp

/-- `find?` commutes with a map that rewrites exactly the matching
elements, provided the rewrite preserves matching. -/
theorem find?_map_preserve {α : Type} (p : α → Bool) (f : α → α)
    (hf : ∀ a, p a = true → p (f a) = true) :
    ∀ l : List α, (l.map (fun x => if p x then f x else x)).find? p
      = (l.find? p).map (fun x => if p x then f x else x) := by
  intro l
  induction l with
  | nil => rfl
  | cons x xs ih =>
    by_cases hx : p x = true
    · simp [List.find?_cons_of_pos, hx, hf x hx]
    · simp only [Bool.not_eq_true] at hx
      simp [List.find?_cons_of_neg, hx, ih]
/-! ### C1: the Auth Guard state machine -/

/-- C1: in production mode (the development bypass off), `requireAuth`
denies with 401 Authentication required when the session carries no
(truthy) admin id or is not marked authenticated; denies with 401
Invalid session and destroys the session when the admin id resolves to
no identity; denies with 401 IP address not authorized when the
identity exists but the client IP is not in its `loggedInIps`; and
otherwise grants, attaching the resolved identity. -/
theorem requireAuth_guard_cases (admins : List AdminUser) (s : SessionData)
    (req : AuthRequest) (now : Nat) :
    ((jsFalsyStr s.adminId = true ∨ s.isAuthenticated = false) →
      requireAuth false admins s req now = (AuthDecision.authenticationRequired, s)) ∧
    (∀ aid, s.adminId = some aid → jsFalsyStr s.adminId = false →
      s.isAuthenticated = true → findAdmin admins aid = none →
      requireAuth false admins s req now = (AuthDecision.invalidSession, destroyedSession)) ∧
    (∀ aid a, s.adminId = some aid → jsFalsyStr s.adminId = false →
      s.isAuthenticated = true → findAdmin admins aid = some a →
      clientIP req ∉ a.loggedInIps →
      requireAuth false admins s req now = (AuthDecision.addressNotAuthorized, s)) ∧
    (∀ aid a, s.adminId = some aid → jsFalsyStr s.adminId = false →
      s.isAuthenticated = true → findAdmin admins aid = some a →
      clientIP req ∈ a.loggedInIps →
      requireAuth false admins s req now = (AuthDecision.granted a, s)) := by
  refine ⟨?_, ?_, ?_, ?_⟩
  · rintro (h | h) <;> simp [requireAuth, h]
  · intro aid h1 h2 h3 h4
    rw [h1] at h2
    simp [requireAuth, h1, h2, h3, h4]
  · intro aid a h1 h2 h3 h4 h5
    rw [h1] at h2
    simp [requireAuth, h1, h2, h3, h4, h5]
  · intro aid a h1 h2 h3 h4 h5
    rw [h1] at h2
    simp [requireAuth, h1, h2, h3, h4, h5]

/-- Witness for C1: a concrete store, session and request exercising
the address-not-authorized branch. -/
theorem requireAuth_guard_cases_witness :
    requireAuth false [AdminUser.mk "a1" "x@y.z" ["1.1.1.1"] 0]
        (SessionData.mk (some "a1") true) (AuthRequest.mk (some "9.9.9.9") none) 3
      = (AuthDecision.addressNotAuthorized, SessionData.mk (some "a1") true) :=
  (requireAuth_guard_cases [AdminUser.mk "a1" "x@y.z" ["1.1.1.1"] 0]
      (SessionData.mk (some "a1") true) (AuthRequest.mk (some "9.9.9.9") none) 3).2.2.1
    "a1" (AdminUser.mk "a1" "x@y.z" ["1.1.1.1"] 0)
    rfl (by decide) rfl (by decide) (by decide)

/-! ### C2: the activity updater versus denied requests -/

/-- Mapping a function that fixes every element of a list is the
identity on that list. -/
theorem map_id_of_forall {α : Type} (l : List α) (f : α → α)
    (h : ∀ x ∈ l, f x = x) : l.map f = l := by
  induction l with
  | nil => rfl
  | cons x xs ih =>
    simp only [List.map_cons, h x (by simp)]
    rw [ih (fun y hy => h y (by simp [hy]))]

/-- Counterexample to C2: a request whose session carries an existing
admin id but is not marked authenticated is denied by the guard
(Authentication required), yet the identity's address set has gained
the request's source address, because `app.use(updateActivity)`
(src/server/index.ts line 91) runs before `requireAuth` and updates on
any session carrying an admin id, regardless of the guard's outcome. -/
theorem authPipeline_denied_still_adds_address :
    (authPipeline false [AdminUser.mk "a1" "x@y.z" ["1.1.1.1"] 0]
        (SessionData.mk (some "a1") false) (AuthRequest.mk (some "2.2.2.2") none) 5).1
      = AuthDecision.authenticationRequired ∧
    (authPipeline false [AdminUser.mk "a1" "x@y.z" ["1.1.1.1"] 0]
        (SessionData.mk (some "a1") false) (AuthRequest.mk (some "2.2.2.2") none) 5).2.2
      = [AdminUser.mk "a1" "x@y.z" ["1.1.1.1", "2.2.2.2"] 5] ∧
    (authPipeline false [AdminUser.mk "a1" "x@y.z" ["1.1.1.1"] 0]
        (SessionData.mk (some "a1") false) (AuthRequest.mk (some "2.2.2.2") none) 5).2.2
      ≠ [AdminUser.mk "a1" "x@y.z" ["1.1.1.1"] 0] := by
  refine ⟨by decide, by decide, by decide⟩

/-- C2 amended: a denied request leaves the address sets unchanged only
when its session carries no (truthy) admin id or an id matching no
identity; when the session carries the id of an existing identity, the
activity updater has already refreshed `lastActivityAt` and unioned
the request's source address into `loggedInIps` before the guard runs,
even when the guard then denies the request. -/
theorem authPipeline_frame_amended (admins : List AdminUser) (s : SessionData)
    (req : AuthRequest) (now : Nat) :
    (jsFalsyStr s.adminId = true →
      (authPipeline false admins s req now).2.2 = admins) ∧
    (∀ aid, s.adminId = some aid → findAdmin admins aid = none →
      (authPipeline false admins s req now).2.2 = admins) ∧
    (∀ aid a, s.adminId = some aid → jsFalsyStr s.adminId = false →
      findAdmin admins aid = some a → s.isAuthenticated = false →
      (authPipeline false admins s req now).1 = AuthDecision.authenticationRequired ∧
      findAdmin (authPipeline false admins s req now).2.2 aid =
        some { a with lastActivityAt := now,
                      loggedInIps := addToSet a.loggedInIps (clientIP req) } ∧
      clientIP req ∈ addToSet a.loggedInIps (clientIP req)) := by
  refine ⟨?_, ?_, ?_⟩
  · intro h
    simp [authPipeline, updateActivity, h]
  · intro aid h1 h2
    have hall : ∀ x ∈ admins, (x.id == aid) = false := by
      intro x hx
      simpa using List.find?_eq_none.mp h2 x hx
    by_cases hfal : jsFalsyStr s.adminId = true
    · simp [authPipeline, updateActivity, hfal]
    · have h2' : jsFalsyStr (some aid) = false := by
        rw [← h1]
        exact Bool.not_eq_true _ ▸ hfal
      have hstore : (authPipeline false admins s req now).2.2 =
          admins.map (fun x => if x.id == aid then
            { x with lastActivityAt := now,
                     loggedInIps := addToSet x.loggedInIps (clientIP req) } else x) := by
        simp [authPipeline, updateActivity, h1, h2']
      rw [hstore]
      apply map_id_of_forall
      intro x hx
      rw [hall x hx]
      simp
  · intro aid a h1 h2 h3 h4
    have h2' : jsFalsyStr (some aid) = false := h1 ▸ h2
    have hstore : (authPipeline false admins s req now).2.2 =
        admins.map (fun x => if x.id == aid then
          { x with lastActivityAt := now,
                   loggedInIps := addToSet x.loggedInIps (clientIP req) } else x) := by
      simp [authPipeline, updateActivity, h1, h2']
    have h3' : admins.find? (fun x => x.id == aid) = some a := h3
    have ha : (a.id == aid) = true := by
      simpa using List.find?_some h3'
    refine ⟨?_, ?_, mem_addToSet _ _⟩
    · simp [authPipeline, requireAuth, h2, h4]
    · rw [hstore]
      show List.find? _ _ = _
      rw [find?_map_preserve (fun x : AdminUser => x.id == aid)
          (fun x => { x with lastActivityAt := now,
                             loggedInIps := addToSet x.loggedInIps (clientIP req) })
          (fun x hx => hx) admins]
      rw [h3']
      simp only [Option.map_some']
      rw [if_pos ha]

/-- Witness for C2 amended: the concrete denied-but-mutated run. -/
theorem authPipeline_frame_amended_witness :
    (authPipeline false [AdminUser.mk "a1" "x@y.z" ["1.1.1.1"] 0]
        (SessionData.mk (some "a1") false) (AuthRequest.mk (some "2.2.2.2") none) 5).1
      = AuthDecision.authenticationRequired ∧
    findAdmin (authPipeline false [AdminUser.mk "a1" "x@y.z" ["1.1.1.1"] 0]
        (SessionData.mk (some "a1") false) (AuthRequest.mk (some "2.2.2.2") none) 5).2.2 "a1"
      = some { AdminUser.mk "a1" "x@y.z" ["1.1.1.1"] 0 with
               lastActivityAt := 5,
               loggedInIps := addToSet ["1.1.1.1"]
                 (clientIP (AuthRequest.mk (some "2.2.2.2") none)) } ∧
    clientIP (AuthRequest.mk (some "2.2.2.2") none)
      ∈ addToSet ["1.1.1.1"] (clientIP (AuthRequest.mk (some "2.2.2.2") none)) :=
  (authPipeline_frame_amended [AdminUser.mk "a1" "x@y.z" ["1.1.1.1"] 0]
      (SessionData.mk (some "a1") false) (AuthRequest.mk (some "2.2.2.2") none) 5).2.2
    "a1" (AdminUser.mk "a1" "x@y.z" ["1.1.1.1"] 0)
    rfl (by decide) (by decide) rfl

/-! ### C3/C4: the resolve route -/

/-- Counterexample to C3: resolving an already-resolved event is not a
no-op; `findByIdAndUpdate` overwrites `resolvedBy` and `resolvedAt`
unconditionally, so a second resolution by a different admin at a
later time changes the stored event. -/
theorem resolve_overwrites_already_resolved :
    (resolveLog [LogEvent.mk "L1" "critical" "m" "s" none none 1 true (some "alice") (some 10)]
        "L1" (some "bob") 20).2
      = [LogEvent.mk "L1" "critical" "m" "s" none none 1 true (some "bob") (some 20)] ∧
    (resolveLog [LogEvent.mk "L1" "critical" "m" "s" none none 1 true (some "alice") (some 10)]
        "L1" (some "bob") 20).2
      ≠ [LogEvent.mk "L1" "critical" "m" "s" none none 1 true (some "alice") (some 10)] := by
  refine ⟨by decide, by decide⟩

/-- C3 amended: on a found event the route unconditionally sets
`resolved := true`, `resolvedBy` (defaulting to `admin` when the
caller value is absent or empty) and `resolvedAt := now`, whether or
not the event was already resolved; consequently the operation is
idempotent on the store only up to those fields: re-invoking it with
the same id, the same `resolvedBy` and the same clock value reproduces
the same final store. -/
theorem resolve_found_amended (store : List LogEvent) (id : String)
    (rb : Option String) (now : Nat) :
    (∀ e, store.find? (fun x => x.id == id) = some e →
      (resolveLog store id rb now).1 = ResolveResult.ok (resolveUpdate e rb now) ∧
      (resolveUpdate e rb now).resolved = true ∧
      (resolveUpdate e rb now).resolvedBy = some (jsOrDStr rb "admin") ∧
      (resolveUpdate e rb now).resolvedAt = some now) ∧
    (resolveLog (resolveLog store id rb now).2 id rb now).2
      = (resolveLog store id rb now).2 := by
  constructor
  · intro e he
    refine ⟨?_, rfl, rfl, rfl⟩
    simp [resolveLog, he]
  · cases hfind : store.find? (fun x => x.id == id) with
    | none =>
      simp [resolveLog, hfind]
    | some e =>
      have hid : (e.id == id) = true := by
        simpa using List.find?_some hfind
      have hpres : ∀ x : LogEvent, (x.id == id) = true →
          ((resolveUpdate x rb now).id == id) = true := fun x hx => hx
      have hfind2 : (store.map (fun x => if x.id == id then resolveUpdate x rb now else x)).find?
          (fun x => x.id == id) = some (resolveUpdate e rb now) := by
        rw [find?_map_preserve (fun x : LogEvent => x.id == id)
            (fun x => resolveUpdate x rb now) hpres store]
        rw [hfind]
        simp only [Option.map_some']
        rw [if_pos hid]
      simp only [resolveLog, hfind, hfind2]
      have hff : ∀ x : LogEvent,
          ((fun x => if x.id == id then resolveUpdate x rb now else x) ∘
            (fun x => if x.id == id then resolveUpdate x rb now else x)) x
          = (fun x => if x.id == id then resolveUpdate x rb now else x) x := by
        intro x
        by_cases hxid : (x.id == id) = true
        · simp only [Function.comp_apply, if_pos hxid, if_pos (hpres x hxid)]
          rfl
        · have hne : ¬x.id = id := by simpa using hxid
          simp [Function.comp_apply, hne]
      rw [List.map_map, congrArg (fun g => List.map g store) (funext hff)]

/-- Witness for C3 amended: the concrete double-resolution run. -/
theorem resolve_found_amended_witness :
    (resolveLog [LogEvent.mk "L1" "critical" "m" "s" none none 1 true (some "alice") (some 10)]
        "L1" (some "bob") 20).1
      = ResolveResult.ok (resolveUpdate
          (LogEvent.mk "L1" "critical" "m" "s" none none 1 true (some "alice") (some 10))
          (some "bob") 20) ∧
    (resolveUpdate (LogEvent.mk "L1" "critical" "m" "s" none none 1 true (some "alice") (some 10))
        (some "bob") 20).resolved = true ∧
    (resolveUpdate (LogEvent.mk "L1" "critical" "m" "s" none none 1 true (some "alice") (some 10))
        (some "bob") 20).resolvedBy = some (jsOrDStr (some "bob") "admin") ∧
    (resolveUpdate (LogEvent.mk "L1" "critical" "m" "s" none none 1 true (some "alice") (some 10))
        (some "bob") 20).resolvedAt = some 20 :=
  (resolve_found_amended
      [LogEvent.mk "L1" "critical" "m" "s" none none 1 true (some "alice") (some 10)]
      "L1" (some "bob") 20).1
    (LogEvent.mk "L1" "critical" "m" "s" none none 1 true (some "alice") (some 10))
    (by decide)

/-- Counterexample to C4: an unknown event id is not silently skipped;
the route answers 404 Log entry not found. -/
theorem resolve_unknown_reports_not_found :
    resolveLog [LogEvent.mk "L1" "info" "m" "s" none none 1 false none none]
        "L2" none 9
      = (ResolveResult.notFound,
          [LogEvent.mk "L1" "info" "m" "s" none none 1 false none none]) ∧
    ResolveResult.notFound ≠ ResolveResult.ok
        (resolveUpdate (LogEvent.mk "L1" "info" "m" "s" none none 1 false none none) none 9) := by
  refine ⟨by decide, by decide⟩

/-- C4 amended: a resolve invocation with an id matching no stored
event fails with 404 Not found and leaves the store unchanged — the
error response occurs exactly on unknown ids. -/
theorem resolve_unknown_amended (store : List LogEvent) (id : String)
    (rb : Option String) (now : Nat) :
    (store.find? (fun e => e.id == id) = none →
      resolveLog store id rb now = (ResolveResult.notFound, store)) ∧
    ((resolveLog store id rb now).1 = ResolveResult.notFound ↔
      store.find? (fun e => e.id == id) = none) := by
  constructor
  · intro h
    simp [resolveLog, h]
  · cases hfind : store.find? (fun e => e.id == id) with
    | none => simp [resolveLog, hfind]
    | some e => simp [resolveLog, hfind]

/-- Witness for C4 amended: a store without the requested id. -/
theorem resolve_unknown_amended_witness :
    resolveLog [LogEvent.mk "L1" "info" "m" "s" none none 1 false none none] "L9" none 4
      = (ResolveResult.notFound,
          [LogEvent.mk "L1" "info" "m" "s" none none 1 false none none]) :=
  (resolve_unknown_amended
      [LogEvent.mk "L1" "info" "m" "s" none none 1 false none none]
      "L9" none 4).1 (by decide)

/-! ### C5: the health scorer -/

/-- `round` is monotone on the rationals. -/
theorem round_mono_q {x y : ℚ} (h : x ≤ y) : round x ≤ round y := by
  rw [round_eq, round_eq]
  exact Int.floor_le_floor (by linarith)

/-- C5: the implemented health score agrees with the reference
algorithm of the spec (including its clamp to [0,100], which the code
omits but which never binds because every penalty is non-negative),
and the implemented status thresholds agree with the claimed ones.
Both are functions of their integer inputs, so identical inputs give
identical score/status pairs. -/
theorem calculateSystemHealth_matches_spec
    (t a f c e uc ue : Nat) :
    calculateSystemHealth t a f c e uc ue = specHealthScore t f c e uc ue ∧
    healthStatus (calculateSystemHealth t a f c e uc ue)
      = specHealthStatus (specHealthScore t f c e uc ue) := by
  have hbase : (if t > 0 then (100 : ℚ) - ((f : ℚ) / (t : ℚ)) * 30 else 100) ≤ 100 := by
    split
    · have h0 : (0 : ℚ) ≤ ((f : ℚ) / (t : ℚ)) * 30 := by positivity
      linarith
    · exact le_refl _
  have hm1 : (0 : ℚ) ≤ min ((c : ℚ) * 5) 25 :=
    le_min (by positivity) (by norm_num)
  have hm2 : (0 : ℚ) ≤ min ((e : ℚ) * 1) 20 :=
    le_min (by positivity) (by norm_num)
  have hm3 : (0 : ℚ) ≤ (uc : ℚ) * 10 := by positivity
  have hm4 : (0 : ℚ) ≤ (ue : ℚ) * 3 := by positivity
  have hs : ((if t > 0 then (100 : ℚ) - ((f : ℚ) / (t : ℚ)) * 30 else 100)
      - min ((c : ℚ) * 5) 25 - min ((e : ℚ) * 1) 20
      - (uc : ℚ) * 10 - (ue : ℚ) * 3) ≤ 100 := by
    linarith
  have hround : round ((if t > 0 then (100 : ℚ) - ((f : ℚ) / (t : ℚ)) * 30 else 100)
      - min ((c : ℚ) * 5) 25 - min ((e : ℚ) * 1) 20
      - (uc : ℚ) * 10 - (ue : ℚ) * 3) ≤ 100 := by
    have h2 := round_mono_q hs
    rw [show round (100 : ℚ) = 100 from by norm_num [round_eq]] at h2
    exact h2
  have hcode : calculateSystemHealth t a f c e uc ue =
      max 0 (round ((if t > 0 then (100 : ℚ) - ((f : ℚ) / (t : ℚ)) * 30 else 100)
        - min ((c : ℚ) * 5) 25 - min ((e : ℚ) * 1) 20
        - (uc : ℚ) * 10 - (ue : ℚ) * 3)) := rfl
  have hspec : specHealthScore t f c e uc ue =
      min 100 (max 0 (round ((if t > 0 then (100 : ℚ) - ((f : ℚ) / (t : ℚ)) * 30 else 100)
        - min ((c : ℚ) * 5) 25 - min ((e : ℚ) * 1) 20
        - (uc : ℚ) * 10 - (ue : ℚ) * 3))) := rfl
  have heq : calculateSystemHealth t a f c e uc ue = specHealthScore t f c e uc ue := by
    rw [hcode, hspec]
    exact (min_eq_right (max_le (by norm_num) hround)).symm
  refine ⟨heq, ?_⟩
  rw [heq]
  rfl

/-! ### C6: log query pagination -/

/-- The ceiling of an exact natural quotient equals the rounded-up
natural division. -/
theorem ceil_natCast_div (n d : Nat) (hd : 0 < d) :
    Int.ceil ((n : ℚ) / (d : ℚ)) = (((n + d - 1) / d : Nat) : Int) := by
  have hdm := Nat.div_add_mod (n + d - 1) d
  have hmlt : (n + d - 1) % d < d := Nat.mod_lt _ hd
  have hA : n ≤ d * ((n + d - 1) / d) := by
    generalize hp : d * ((n + d - 1) / d) = p at hdm
    omega
  have hB : d * ((n + d - 1) / d) < n + d := by
    generalize hp : d * ((n + d - 1) / d) = p at hdm
    omega
  have hd' : (0 : ℚ) < (d : ℚ) := by exact_mod_cast hd
  rw [Int.ceil_eq_iff]
  constructor
  · rw [lt_div_iff₀ hd']
    have hBq : (d : ℚ) * (((n + d - 1) / d : Nat) : ℚ) < (n : ℚ) + (d : ℚ) := by
      exact_mod_cast hB
    simp only [Int.cast_natCast]
    nlinarith
  · rw [div_le_iff₀ hd']
    have hAq : (n : ℚ) ≤ (d : ℚ) * (((n + d - 1) / d : Nat) : ℚ) := by
      exact_mod_cast hA
    simp only [Int.cast_natCast]
    nlinarith

/-- Counterexample to C6: at caller-requested limit 0 (reachable as
`?limit=0`, since `parseInt("0")` succeeds) the effective limit is 0,
but MongoDB's `.limit(0)` applies no limit, so the query returns every
matching document — here one item, exceeding the effective limit 0 —
and `Math.ceil(total / 0)` is `NaN` at total 0 rather than the claimed
0 pages. -/
theorem pagination_limit_zero_unbounded :
    effectiveLimit 0 = 0 ∧
    pagedLogs [LogEvent.mk "L1" "info" "m" "s" none none 1 false none none] 1 0
      = some [LogEvent.mk "L1" "info" "m" "s" none none 1 false none none] ∧
    ¬([LogEvent.mk "L1" "info" "m" "s" none none 1 false none none].length
        ≤ effectiveLimit 0) ∧
    pagesOf 0 (effectiveLimit 0) = none := by
  refine ⟨by decide, by decide, by decide, by decide⟩

/-- C6 amended: the effective page size is capped at 100 whatever
limit the caller requests; for a positive caller limit the returned
page never holds more than the effective limit and the reported page
count is the rounded-up quotient of the total by the effective limit,
with a zero total giving zero pages.  At caller limit 0 the query is
unbounded and the page count is not a number. -/
theorem logs_pagination_bounds_amended (logs : List LogEvent) (page limit total : Nat) :
    effectiveLimit limit ≤ 100 ∧
    (0 < limit → ∀ items, pagedLogs logs page limit = some items →
      items.length ≤ effectiveLimit limit) ∧
    (0 < limit →
      pagesOf total (effectiveLimit limit)
        = some (((total + effectiveLimit limit - 1) / effectiveLimit limit : Nat) : Int)) ∧
    (0 < limit → pagesOf 0 (effectiveLimit limit) = some 0) := by
  have hpos : 0 < limit → 0 < effectiveLimit limit :=
    fun hl => lt_min hl (by norm_num)
  refine ⟨min_le_right _ _, ?_, ?_, ?_⟩
  · intro hl items hitems
    have hne : ¬effectiveLimit limit = 0 := Nat.pos_iff_ne_zero.mp (hpos hl)
    simp only [pagedLogs, if_neg hne] at hitems
    split at hitems
    · exact absurd hitems (by simp)
    · have : (logs.drop ((page - 1) * effectiveLimit limit)).take (effectiveLimit limit)
          = items := by
        simpa using hitems
      rw [← this, List.length_take]
      exact min_le_left _ _
  · intro hl
    have hne : ¬effectiveLimit limit = 0 := Nat.pos_iff_ne_zero.mp (hpos hl)
    simp only [pagesOf, if_neg hne]
    rw [ceil_natCast_div total (effectiveLimit limit) (hpos hl)]
  · intro hl
    have hne : ¬effectiveLimit limit = 0 := Nat.pos_iff_ne_zero.mp (hpos hl)
    simp [pagesOf, if_neg hne]

/-- Witness for C6 amended: a concrete query with an oversized caller
limit, where the cap, the item bound and the page count all evaluate. -/
theorem logs_pagination_bounds_amended_witness :
    0 < 500 ∧
    (∀ items, pagedLogs [LogEvent.mk "L1" "info" "m" "s" none none 1 false none none] 1 500
        = some items → items.length ≤ effectiveLimit 500) ∧
    pagesOf 250 (effectiveLimit 500)
      = some (((250 + effectiveLimit 500 - 1) / effectiveLimit 500 : Nat) : Int) ∧
    pagesOf 0 (effectiveLimit 500) = some 0 ∧
    effectiveLimit 500 = 100 ∧
    (((250 + effectiveLimit 500 - 1) / effectiveLimit 500 : Nat) : Int) = 3 :=
  ⟨by decide,
   (logs_pagination_bounds_amended
      [LogEvent.mk "L1" "info" "m" "s" none none 1 false none none] 1 500 250).2.1 (by decide),
   (logs_pagination_bounds_amended
      [LogEvent.mk "L1" "info" "m" "s" none none 1 false none none] 1 500 250).2.2.1 (by decide),
   (logs_pagination_bounds_amended
      [LogEvent.mk "L1" "info" "m" "s" none none 1 false none none] 1 500 250).2.2.2 (by decide),
   by decide, by decide⟩

/-! ### C7/C8: ingestion and the resolution invariant -/

/-- The property the claim calls a missing field: absent from the
submitted event. -/
def missingField (o : Option String) : Prop :=
  o = none

/-- What the route's JS truthiness check actually rejects: absent or
empty. -/
def missingOrEmpty (o : Option String) : Prop :=
  o = none ∨ o = some ""

/-- The truthiness check agrees with absent-or-empty. -/
theorem jsFalsyStr_iff (o : Option String) :
    jsFalsyStr o = true ↔ missingOrEmpty o := by
  cases o with
  | none => simp [jsFalsyStr, missingOrEmpty]
  | some s => simp [jsFalsyStr, missingOrEmpty]

/-- Counterexample to C7: a submission whose three required fields are
all present — none is missing — but whose `level` is the empty string
is rejected with ValidationError, so rejection is not equivalent to a
field being missing. -/
theorem ingest_rejects_present_empty_level :
    (ingest [] (IngestBody.mk (some "") (some "boom") (some "tenant-7")
        none none none none none none) 7 "L1").1
      = IngestResult.validationError ∧
    ¬missingField (some "") ∧ ¬missingField (some "boom") ∧
    ¬missingField (some "tenant-7") := by
  refine ⟨by decide, by simp [missingField], by simp [missingField], by simp [missingField]⟩

/-- C7 amended: ingestion fails with ValidationError exactly when
`level`, `message` or `source` is missing or empty; otherwise it
persists the event with the server-assigned timestamp (any
caller-supplied timestamp is ignored) and returns the stored event
carrying its identifier. -/
theorem ingest_amended (store : List LogEvent) (body : IngestBody)
    (now : Nat) (newId : String) :
    ((ingest store body now newId).1 = IngestResult.validationError ↔
      (missingOrEmpty body.level ∨ missingOrEmpty body.message ∨
        missingOrEmpty body.source)) ∧
    (¬(missingOrEmpty body.level ∨ missingOrEmpty body.message ∨
        missingOrEmpty body.source) →
      ingest store body now newId =
        (IngestResult.created (createLog body now newId),
          store ++ [createLog body now newId]) ∧
      (createLog body now newId).timestamp = now ∧
      (createLog body now newId).id = newId) := by
  by_cases h : (jsFalsyStr body.level || jsFalsyStr body.message ||
      jsFalsyStr body.source) = true
  · have hprop : missingOrEmpty body.level ∨ missingOrEmpty body.message ∨
        missingOrEmpty body.source := by
      rcases Bool.or_eq_true_iff.mp h with h1 | h2
      · rcases Bool.or_eq_true_iff.mp h1 with h3 | h4
        · exact Or.inl ((jsFalsyStr_iff _).mp h3)
        · exact Or.inr (Or.inl ((jsFalsyStr_iff _).mp h4))
      · exact Or.inr (Or.inr ((jsFalsyStr_iff _).mp h2))
    constructor
    · simp only [ingest, h]
      simp [hprop]
    · intro hc
      exact absurd hprop hc
  · have hfalse : (jsFalsyStr body.level || jsFalsyStr body.message ||
        jsFalsyStr body.source) = false := Bool.not_eq_true _ ▸ eq_false_of_ne_true h
    have h1 : jsFalsyStr body.level = false := by
      rcases Bool.or_eq_false_iff.mp hfalse with ⟨h3, _⟩
      exact (Bool.or_eq_false_iff.mp h3).1
    have h2 : jsFalsyStr body.message = false := by
      rcases Bool.or_eq_false_iff.mp hfalse with ⟨h3, _⟩
      exact (Bool.or_eq_false_iff.mp h3).2
    have h3 : jsFalsyStr body.source = false :=
      (Bool.or_eq_false_iff.mp hfalse).2
    have hprop : ¬(missingOrEmpty body.level ∨ missingOrEmpty body.message ∨
        missingOrEmpty body.source) := by
      rintro (hm | hm | hm)
      · rw [← jsFalsyStr_iff] at hm
        rw [h1] at hm
        exact Bool.false_ne_true hm
      · rw [← jsFalsyStr_iff] at hm
        rw [h2] at hm
        exact Bool.false_ne_true hm
      · rw [← jsFalsyStr_iff] at hm
        rw [h3] at hm
        exact Bool.false_ne_true hm
    constructor
    · simp only [ingest, h1, h2, h3]
      simpa using hprop
    · intro _
      refine ⟨?_, rfl, rfl⟩
      simp [ingest, h1, h2, h3]

/-- Witness for C7 amended: a fully-populated valid submission. -/
theorem ingest_amended_witness :
    ingest [] (IngestBody.mk (some "error") (some "disk failure") (some "tenant-7")
        none none (some 999) none none none) 7 "L1"
      = (IngestResult.created (createLog (IngestBody.mk (some "error")
            (some "disk failure") (some "tenant-7") none none (some 999) none none none) 7 "L1"),
         [] ++ [createLog (IngestBody.mk (some "error") (some "disk failure")
            (some "tenant-7") none none (some 999) none none none) 7 "L1"]) ∧
    (createLog (IngestBody.mk (some "error") (some "disk failure") (some "tenant-7")
        none none (some 999) none none none) 7 "L1").timestamp = 7 ∧
    (createLog (IngestBody.mk (some "error") (some "disk failure") (some "tenant-7")
        none none (some 999) none none none) 7 "L1").id = "L1" :=
  (ingest_amended [] (IngestBody.mk (some "error") (some "disk failure") (some "tenant-7")
      none none (some 999) none none none) 7 "L1").2
    (by simp [missingOrEmpty])

/-- The claimed relation between `resolvedAt` and `resolved`:
`resolvedAt` is set if and only if the event is resolved. -/
def resolvedIffInvariant (e : LogEvent) : Prop :=
  e.resolvedAt.isSome = true ↔ e.resolved = true

/-- Counterexample to C8: the ingestion route spreads the caller body
into the new document and overrides only `timestamp`, so a caller that
supplies `resolved: true` creates an event that is resolved at
creation (and, having no `resolvedAt`, also breaks the
set-iff-resolved relation). -/
theorem ingest_caller_can_preset_resolved :
    (ingest [] (IngestBody.mk (some "info") (some "m") (some "s")
        none none none (some true) none none) 7 "L1").1
      = IngestResult.created (createLog (IngestBody.mk (some "info") (some "m") (some "s")
          none none none (some true) none none) 7 "L1") ∧
    (createLog (IngestBody.mk (some "info") (some "m") (some "s")
        none none none (some true) none none) 7 "L1").resolved = true ∧
    ¬resolvedIffInvariant (createLog (IngestBody.mk (some "info") (some "m") (some "s")
        none none none (some true) none none) 7 "L1") := by
  refine ⟨by decide, by decide, ?_⟩
  intro hinv
  have h1 := hinv.mpr (by decide)
  simp only [createLog, Option.isSome_none] at h1
  exact Bool.false_ne_true h1

/-- C8 amended: an ingested event is unresolved at creation whenever
the caller does not supply resolution fields (the schema default
applies only then, since the route spreads the caller body and
overrides only `timestamp`), and for such events `resolvedAt` is unset
at creation; the resolve route always sets `resolved` and `resolvedAt`
together, so it preserves the set-iff-resolved relation. -/
theorem resolved_invariant_amended (body : IngestBody) (now : Nat)
    (newId : String) (e : LogEvent) (rb : Option String) (t : Nat) :
    (body.resolved = none → (createLog body now newId).resolved = false) ∧
    (body.resolved = none → body.resolvedAt = none →
      resolvedIffInvariant (createLog body now newId)) ∧
    resolvedIffInvariant (resolveUpdate e rb t) := by
  refine ⟨?_, ?_, ?_⟩
  · intro h
    simp [createLog, h]
  · intro h1 h2
    unfold resolvedIffInvariant
    simp [createLog, h1, h2]
  · unfold resolvedIffInvariant
    simp [resolveUpdate]

/-- Witness for C8 amended: a body with no resolution fields. -/
theorem resolved_invariant_amended_witness :
    (createLog (IngestBody.mk (some "info") (some "m") (some "s")
        none none none none none none) 3 "L2").resolved = false ∧
    resolvedIffInvariant (createLog (IngestBody.mk (some "info") (some "m") (some "s")
        none none none none none none) 3 "L2") ∧
    resolvedIffInvariant (resolveUpdate
        (LogEvent.mk "L2" "info" "m" "s" none none 3 false none none) none 9) :=
  ⟨(resolved_invariant_amended (IngestBody.mk (some "info") (some "m") (some "s")
        none none none none none none) 3 "L2"
        (LogEvent.mk "L2" "info" "m" "s" none none 3 false none none) none 9).1 rfl,
   (resolved_invariant_amended (IngestBody.mk (some "info") (some "m") (some "s")
        none none none none none none) 3 "L2"
        (LogEvent.mk "L2" "info" "m" "s" none none 3 false none none) none 9).2.1 rfl rfl,
   (resolved_invariant_amended (IngestBody.mk (some "info") (some "m") (some "s")
        none none none none none none) 3 "L2"
        (LogEvent.mk "L2" "info" "m" "s" none none 3 false none none) none 9).2.2⟩

/-! ### C9: the registration trend cumulative column -/

/-- The day column of the cumulative pass is the day column of its
input. -/
theorem trendCumulAux_map_fst (t : List (Nat × Nat)) :
    ∀ acc, (trendCumulAux acc t).map (fun r => r.1) = t.map Prod.fst := by
  induction t with
  | nil => intro acc; rfl
  | cons p rest ih =>
    intro acc
    cases p with
    | mk d c => simp [trendCumulAux, ih]

/-- The count column of the cumulative pass is the count column of its
input. -/
theorem trendCumulAux_map_count (t : List (Nat × Nat)) :
    ∀ acc, (trendCumulAux acc t).map (fun r => r.2.1) = t.map Prod.snd := by
  induction t with
  | nil => intro acc; rfl
  | cons p rest ih =>
    intro acc
    cases p with
    | mk d c => simp [trendCumulAux, ih]

/-- Each cumulative entry is the accumulator plus the sum of the
counts up to and including that bucket. -/
theorem trendCumulAux_get (t : List (Nat × Nat)) :
    ∀ (acc i : Nat) (h : i < (trendCumulAux acc t).length),
      ((trendCumulAux acc t).get ⟨i, h⟩).2.2
        = acc + ((t.take (i + 1)).map Prod.snd).sum := by
  induction t with
  | nil =>
    intro acc i h
    simp [trendCumulAux] at h
  | cons p rest ih =>
    intro acc i h
    cases p with
    | mk d c =>
      cases i with
      | zero => simp [trendCumulAux]
      | succ j =>
        have h2 : j < (trendCumulAux (acc + c) rest).length := by
          simpa [trendCumulAux] using h
        have hstep : ((trendCumulAux acc ((d, c) :: rest)).get ⟨j + 1, h⟩).2.2
            = ((trendCumulAux (acc + c) rest).get ⟨j, h2⟩).2.2 := rfl
        rw [hstep, ih (acc + c) j h2, List.take_succ_cons, List.map_cons, List.sum_cons]
        omega

/-- C9: the registration trend series is ordered ascending by day, its
cumulative column is the running sum of the count column
(entry i equals the sum of the first i+1 counts), and an empty input
window yields an empty series. -/
theorem registrationTrend_cumulative_running_sum (createdAts : List Nat) (startDate : Nat) :
    List.Sorted (· ≤ ·)
      ((registrationTrendWithCumulative createdAts startDate).map (fun r => r.1)) ∧
    (∀ i (h : i < (registrationTrendWithCumulative createdAts startDate).length),
      ((registrationTrendWithCumulative createdAts startDate).get ⟨i, h⟩).2.2
        = (((registrationTrendWithCumulative createdAts startDate).take (i + 1)).map
            (fun r => r.2.1)).sum) ∧
    (createdAts = [] → registrationTrendWithCumulative createdAts startDate = []) := by
  refine ⟨?_, ?_, ?_⟩
  · have hfst : (registrationTrendWithCumulative createdAts startDate).map (fun r => r.1)
        = (((createdAts.filter (fun t => startDate ≤ t)).map dayOf).dedup).insertionSort
            (· ≤ ·) := by
      simp only [registrationTrendWithCumulative, trendWithCumulative, registrationTrend]
      rw [trendCumulAux_map_fst]
      simp [List.map_map, Function.comp_def]
    rw [hfst]
    exact List.sorted_insertionSort (· ≤ ·) _
  · intro i h
    have h0 : i < (trendCumulAux 0 (registrationTrend createdAts startDate)).length := h
    have hget := trendCumulAux_get (registrationTrend createdAts startDate) 0 i h0
    have hcounts : ((registrationTrendWithCumulative createdAts startDate).take (i + 1)).map
          (fun r => r.2.1)
        = ((registrationTrend createdAts startDate).take (i + 1)).map Prod.snd := by
      rw [List.map_take, List.map_take]
      simp only [registrationTrendWithCumulative, trendWithCumulative]
      rw [trendCumulAux_map_count]
    rw [hcounts]
    calc ((registrationTrendWithCumulative createdAts startDate).get ⟨i, h⟩).2.2
        = ((trendCumulAux 0 (registrationTrend createdAts startDate)).get ⟨i, h0⟩).2.2 := rfl
      _ = 0 + (((registrationTrend createdAts startDate).take (i + 1)).map Prod.snd).sum := hget
      _ = (((registrationTrend createdAts startDate).take (i + 1)).map Prod.snd).sum :=
          Nat.zero_add _
  · intro h
    subst h
    rfl

/-- Witness for C9: a three-registration window spanning two days. -/
theorem registrationTrend_cumulative_running_sum_witness :
    1 < (registrationTrendWithCumulative [86400000, 0, 50] 0).length ∧
    ((registrationTrendWithCumulative [86400000, 0, 50] 0).get ⟨1, by decide⟩).2.2
      = (((registrationTrendWithCumulative [86400000, 0, 50] 0).take 2).map
          (fun r => r.2.1)).sum :=
  ⟨by decide,
   (registrationTrend_cumulative_running_sum [86400000, 0, 50] 0).2.1 1 (by decide)⟩

/-! ### C10: the sources endpoint -/

/-- Counterexample to C10: with a stored event whose source is the
empty string, the endpoint the server actually serves (the first
registered handler) returns the empty value too, so its response is
not the list of non-empty observed values the claim describes. -/
theorem sources_endpoint_keeps_empty_value :
    "" ∈ sourcesEndpoint
        [LogEvent.mk "L1" "info" "m" "" none none 0 false none none,
         LogEvent.mk "L2" "info" "m" "b" none none 0 false none none] ∧
    "" ∉ specDistinctSources
        [LogEvent.mk "L1" "info" "m" "" none none 0 false none none,
         LogEvent.mk "L2" "info" "m" "b" none none 0 false none none] ∧
    sourcesEndpoint
        [LogEvent.mk "L1" "info" "m" "" none none 0 false none none,
         LogEvent.mk "L2" "info" "m" "b" none none 0 false none none]
      ≠ specDistinctSources
        [LogEvent.mk "L1" "info" "m" "" none none 0 false none none,
         LogEvent.mk "L2" "info" "m" "b" none none 0 false none none] := by
  have h1 : "" ∈ sourcesEndpoint
      [LogEvent.mk "L1" "info" "m" "" none none 0 false none none,
       LogEvent.mk "L2" "info" "m" "b" none none 0 false none none] := by
    rw [sourcesEndpoint, sourcesHandlerFirst, List.mem_insertionSort]
    rw [distinctValues, List.mem_dedup]
    decide
  have h2 : "" ∉ specDistinctSources
      [LogEvent.mk "L1" "info" "m" "" none none 0 false none none,
       LogEvent.mk "L2" "info" "m" "b" none none 0 false none none] := by
    rw [specDistinctSources, List.mem_insertionSort, List.mem_filter]
    intro hmem
    have := hmem.2
    simp at this
  exact ⟨h1, h2, fun heq => h2 (heq ▸ h1)⟩

/-- C10 amended: the served sources endpoint returns exactly the
distinct observed source values — empty values included and no
categories — sorted lexicographically without duplicates; the second
handler registered for the same path (which filters empties and adds
categories) never answers. -/
theorem sources_endpoint_amended (logs : List LogEvent) :
    List.Sorted (· ≤ ·) (sourcesEndpoint logs) ∧
    (sourcesEndpoint logs).Nodup ∧
    (∀ s, s ∈ sourcesEndpoint logs ↔ s ∈ logs.map (fun e => e.source)) := by
  refine ⟨?_, ?_, ?_⟩
  · exact List.sorted_insertionSort (· ≤ ·) _
  · exact (List.perm_insertionSort (· ≤ ·) _).nodup_iff.mpr (List.nodup_dedup _)
  · intro s
    simp only [sourcesEndpoint, sourcesHandlerFirst, distinctValues]
    rw [List.mem_insertionSort, List.mem_dedup]
